import Mathlib

/-!
Shallow embedding of the Kubernetes service-registration client
(`serviceregistration/kubernetes/client/client.go`).

Bytes are modelled as `String` (Go renders `[]byte` with `%s`).  A request
body stream is `Option String`: `none` is a nil `Body`; `some s` is a
buffered reader whose *remaining unread bytes* are `s`.  `ioutil.ReadAll`
returns the remaining bytes and drains the reader; installing
`ioutil.NopCloser(bytes.NewReader(b))` makes the remaining bytes `b`;
`client.Do` transmits the remaining bytes and leaves the reader drained.

The collaborators the executor calls out to (the network transport, the
in-cluster configuration loader, JSON encode/decode) are modelled as
oracles supplied in an `Env`, indexed by invocation count, so that every
interleaving of their answers is a quantifiable execution.
-/

namespace KubeClient

/-- maxRetries is the maximum number of times the client should retry
(`const maxRetries = 10`). -/
def maxRetries : Nat := 10

/-- In-cluster configuration snapshot `Config{Host, BearerToken, CACertPool}`.
The CA certificate pool is opaque to every claim and is modelled by an
abstract identifier. -/
structure Config where
  host : String
  bearerToken : String
  caCertPool : Nat
deriving DecidableEq

/-- Header.Set semantics: replace any existing value for the key. -/
def headerSet (hs : List (String × String)) (key value : String) :
    List (String × String) :=
  (key, value) :: hs.filter (fun p => p.1 ≠ key)

/-- Header.Get semantics: first value stored for the key, if any. -/
def headerGet (hs : List (String × String)) (key : String) : Option String :=
  (hs.find? (fun p => p.1 == key)).map (fun p => p.2)

/-- An `http.Request`: method, URL, headers, and the body stream
(`none` = nil `Body`; `some s` = buffered reader with remaining bytes `s`). -/
structure HttpRequest where
  method : String
  url : String
  headers : List (String × String) := []
  body : Option String := none
deriving DecidableEq

/-- An `http.Response`: status code, headers and full body bytes.  The
source never reads the response headers; they are carried so that theorems
can quantify over them. -/
structure HttpResponse where
  statusCode : Nat
  headers : List (String × String) := []
  body : String
deriving DecidableEq

/-- Result of one `client.Do` round trip: a transport-level error or a
response. -/
inductive NetOutcome where
  | transportError (msg : String)
  | response (resp : HttpResponse)
deriving DecidableEq

/-- A request as observed on the wire: method, URL, the headers attached to
the request at send time, and the bytes actually transmitted as the body. -/
structure SentRequest where
  method : String
  url : String
  headers : List (String × String)
  body : String
deriving DecidableEq

/-- Metadata (`name`, optional `labels`; the labels map is `none` when the
key was absent, `some` — possibly empty — when present). -/
structure Metadata where
  name : String := ""
  labels : Option (List (String × String)) := none
deriving DecidableEq

/-- Pod (`metadata`). -/
structure Pod where
  metadata : Option Metadata := none
deriving DecidableEq

/-- PatchOperation, `type PatchOperation string` in the source. -/
abbrev PatchOperation := String

/-- The invalid sentinel operation. -/
def Unset : PatchOperation := "unset"

/-- The `add` operation. -/
def Add : PatchOperation := "add"

/-- The `replace` operation. -/
def Replace : PatchOperation := "replace"

/-- Patch, the source's `Patch` record.  `Value` is arbitrary JSON-serializable
data in the source; it is modelled abstractly as a string. -/
structure Patch where
  operation : PatchOperation
  path : String
  value : String
deriving DecidableEq

/-- One entry of the JSON Patch document: the `map[string]interface` with
keys `op`, `path`, `value`. -/
structure JsonPatchEntry where
  op : PatchOperation
  path : String
  value : String
deriving DecidableEq

/-- The errors the client can surface, one constructor per distinct error
kind of the source (`ErrNamespaceUnset`, `ErrPodNameUnset`,
`ErrNotInCluster`, the patch-operation guard, `json.Marshal` failures,
transport failures, the two formatted status-code errors, `ErrNotFound`,
and decode failures). -/
inductive ClientError where
  | errNamespaceUnset
  | errPodNameUnset
  | errNotInCluster
  | errPatchOperationUnset
  | errMarshal (msg : String)
  | errTransport (msg : String)
  | errBadStatusCode (info : String)
  | errUnexpectedStatusCode (info : String)
  | errNotFound (debuggingInfo : String)
  | errDecode (msg : String)
deriving DecidableEq

/-- The `Error()` text of each error. -/
def ClientError.errorText : ClientError → String
  | .errNamespaceUnset => "\"namespace\" is unset"
  | .errPodNameUnset => "\"podName\" is unset"
  | .errNotInCluster =>
      "unable to load in-cluster configuration, KUBERNETES_SERVICE_HOST and KUBERNETES_SERVICE_PORT must be defined"
  | .errPatchOperationUnset => "patch operation must be set"
  | .errMarshal msg => msg
  | .errTransport msg => msg
  | .errBadStatusCode info => "bad status code: " ++ info
  | .errUnexpectedStatusCode info => "unexpected status code: " ++ info
  | .errNotFound info => info
  | .errDecode msg => msg

/-- The caller-side test for the distinctly-typed not-found error
(the `errors.As` type assertion against `ErrNotFound` in Go terms). -/
def ClientError.isNotFound : ClientError → Bool
  | .errNotFound _ => true
  | _ => false

/-- sanitizedDebuggingInfo converts an http response to a string without
including its headers to avoid leaking authorization headers
(`fmt.Sprintf("req method: %s, req url: %s, req body: %s, resp statuscode: %d, resp respBody: %s", ...)`). -/
def sanitizedDebuggingInfo (req : HttpRequest) (reqBody : String)
    (resp : HttpResponse) : String :=
  "req method: " ++ req.method ++ ", req url: " ++ req.url ++
    ", req body: " ++ reqBody ++ ", resp statuscode: " ++
    toString resp.statusCode ++ ", resp respBody: " ++ resp.body

/-- The executor's collaborators, as oracles indexed by invocation count.

`stopAt i` models the `select` in the wait before attempt `i`: `true` means
the `stopCh` branch is taken, `false` means the backoff timer elapses.

`inClusterConfig` — Modelled from the spec: the in-cluster configuration
loader itself lives outside the given source file; per the spec, the Config
Provider "produces an immutable snapshot {Host, BearerToken, CACertPool} on
each invocation; may be invoked repeatedly to observe token rotation" and
"fails with a distinct error when the execution context lacks the expected
credential material".  `inClusterConfig k` is the result of its `k`-th
invocation during the call.

`net k` is the outcome of the `k`-th network round trip; `decodePod` and
`jsonMarshal` are the standard-library JSON codec, which the spec leaves
unspecified. -/
structure Env where
  stopAt : Nat → Bool
  inClusterConfig : Nat → Except ClientError Config
  net : Nat → NetOutcome
  decodePod : String → Except String Pod
  jsonMarshal : List JsonPatchEntry → Except String String

/-- The mutable state threaded through one `do` call: the client's current
`Config`, the request (whose body stream is consumed by sends), the wire
trace, the number of network and config-loader invocations so far, and the
decoded object, if any. -/
structure DoState where
  config : Config
  req : HttpRequest
  trace : List SentRequest
  netCalls : Nat
  cfgCalls : Nat
  pod : Option Pod
deriving DecidableEq

/-- attemptRequest tries one single request.

It first preserves the request body for diagnostics: `ReadAll` drains the
reader returning the remaining bytes `reqBody`, and a fresh reader over
`reqBody` is installed, so the remaining bytes are unchanged at send time.
`client.Do` then transmits the remaining bytes and leaves the reader
drained.  The response is classified exactly as the source's `switch`:
2xx success (decoding into the return object when one was supplied),
401/403 re-fetches the in-cluster config and retries only when the token
changed (adopting the new config), 404 is the distinctly typed not-found
error, 500/502/503/504 are retryable, everything else is terminal. -/
def attemptRequest (env : Env) (wantDecode : Bool) (st : DoState) :
    Bool × Option ClientError × DoState :=
  let reqBody : String := st.req.body.getD ""
  let sent : SentRequest :=
    { method := st.req.method, url := st.req.url,
      headers := st.req.headers, body := reqBody }
  let outcome := env.net st.netCalls
  let st1 : DoState :=
    { st with
      netCalls := st.netCalls + 1,
      trace := st.trace ++ [sent],
      req := { st.req with body := st.req.body.map (fun _ => "") } }
  match outcome with
  | .transportError msg => (false, some (.errTransport msg), st1)
  | .response resp =>
    if resp.statusCode = 200 ∨ resp.statusCode = 201 ∨
        resp.statusCode = 202 ∨ resp.statusCode = 204 then
      if wantDecode then
        match env.decodePod resp.body with
        | .ok p => (false, none, { st1 with pod := some p })
        | .error msg => (false, some (.errDecode msg), st1)
      else (false, none, st1)
    else if resp.statusCode = 401 ∨ resp.statusCode = 403 then
      let st2 : DoState := { st1 with cfgCalls := st1.cfgCalls + 1 }
      match env.inClusterConfig st.cfgCalls with
      | .error e => (false, some e, st2)
      | .ok config =>
        if config.bearerToken = st.config.bearerToken then
          (false,
           some (.errBadStatusCode (sanitizedDebuggingInfo st.req reqBody resp)),
           st2)
        else
          (true,
           some (.errBadStatusCode (sanitizedDebuggingInfo st.req reqBody resp)),
           { st2 with config := config })
    else if resp.statusCode = 404 then
      (false,
       some (.errNotFound (sanitizedDebuggingInfo st.req reqBody resp)), st1)
    else if resp.statusCode = 500 ∨ resp.statusCode = 502 ∨
        resp.statusCode = 503 ∨ resp.statusCode = 504 then
      (true,
       some (.errUnexpectedStatusCode (sanitizedDebuggingInfo st.req reqBody resp)),
       st1)
    else
      (false,
       some (.errUnexpectedStatusCode (sanitizedDebuggingInfo st.req reqBody resp)),
       st1)

/-- The retry loop of `Client.do`: for each `i` below `maxRetries`, wait
(when `i` is nonzero) on the stop signal versus the backoff timer, then run
one attempt.  `r` is the number of iterations left (`maxRetries - i`), `i`
the attempt index, `lastErr` the last retryable error. -/
def doLoop (env : Env) (wantDecode : Bool) :
    Nat → Nat → Option ClientError → DoState → Option ClientError × DoState
  | _, 0, lastErr, st => (lastErr, st)
  | i, r + 1, _lastErr, st =>
    if i ≠ 0 ∧ env.stopAt i = true then
      (none, st)
    else
      let a := attemptRequest env wantDecode st
      if a.1 then doLoop env wantDecode (i + 1) r a.2.1 a.2.2
      else (a.2.1, a.2.2)

/-- Client.do: finish setting up the request (attach the bearer token of
the *current* config as the authorization credential, and the accept-JSON
marker), then run the retry loop.  Returns the loop's error together with
the final state (wire trace, counters, adopted config, decoded object). -/
def doRequest (env : Env) (cfg : Config) (req : HttpRequest)
    (wantDecode : Bool) : Option ClientError × DoState :=
  doLoop env wantDecode 0 maxRetries none
    { config := cfg,
      req := { req with
        headers := headerSet
          (headerSet req.headers "Authorization" ("Bearer " ++ cfg.bearerToken))
          "Accept" "application/json" },
      trace := [], netCalls := 0, cfgCalls := 0, pod := none }

/-- GetPod gets a pod from the Kubernetes API.  Validates the identifiers,
then delegates to the executor with a decode target.  Returns the result
together with the wire trace (`[]` = zero network calls). -/
def GetPod (env : Env) (cfg : Config) (ns podName : String) :
    Except ClientError Pod × List SentRequest :=
  let endpoint := "/api/v1/namespaces/" ++ ns ++ "/pods/" ++ podName
  if ns = "" then (.error .errNamespaceUnset, [])
  else if podName = "" then (.error .errPodNameUnset, [])
  else
    match doRequest env cfg
        { method := "GET", url := cfg.host ++ endpoint } true with
    | (some e, st) => (.error e, st.trace)
    | (none, st) => (.ok (st.pod.getD { metadata := none }), st.trace)

/-- The loop of `PatchPod` that rejects the `Unset` sentinel and builds the
JSON Patch entries in order. -/
def buildJsonPatches : List Patch → Except ClientError (List JsonPatchEntry)
  | [] => .ok []
  | patch :: rest =>
    if patch.operation = Unset then .error .errPatchOperationUnset
    else
      match buildJsonPatches rest with
      | .ok entries =>
          .ok ({ op := patch.operation, path := patch.path,
                 value := patch.value } :: entries)
      | .error e => .error e

/-- PatchPod updates the pod's tags to the given ones.  Validates the
identifiers, treats an empty patch list as a no-op, rejects unset patch
operations, serializes the patches, and delegates to the executor with no
decode target.  Returns the error (if any) with the wire trace. -/
def PatchPod (env : Env) (cfg : Config) (ns podName : String)
    (patches : List Patch) : Option ClientError × List SentRequest :=
  let endpoint := "/api/v1/namespaces/" ++ ns ++ "/pods/" ++ podName
  if ns = "" then (some .errNamespaceUnset, [])
  else if podName = "" then (some .errPodNameUnset, [])
  else if patches.length = 0 then (none, [])
  else
    match buildJsonPatches patches with
    | .error e => (some e, [])
    | .ok jsonPatches =>
      match env.jsonMarshal jsonPatches with
      | .error msg => (some (.errMarshal msg), [])
      | .ok body =>
        let result := doRequest env cfg
          { method := "PATCH", url := cfg.host ++ endpoint,
            headers := headerSet [] "Content-Type" "application/json-patch+json",
            body := some body } false
        (result.1, result.2.trace)

/-! ## Step lemmas -/

/-- The state update common to every attempt: one more network call, the
sent request (with the remaining body bytes as transmitted bytes) appended
to the trace, and the body reader left drained by the send. -/
def DoState.afterSend (st : DoState) : DoState :=
  { st with
    netCalls := st.netCalls + 1,
    trace := st.trace ++ [{ method := st.req.method, url := st.req.url,
                            headers := st.req.headers,
                            body := st.req.body.getD "" }],
    req := { st.req with body := st.req.body.map (fun _ => "") } }

theorem afterSend_netCalls (st : DoState) :
    st.afterSend.netCalls = st.netCalls + 1 := rfl

theorem afterSend_req_method (st : DoState) :
    st.afterSend.req.method = st.req.method := rfl

theorem afterSend_req_url (st : DoState) :
    st.afterSend.req.url = st.req.url := rfl

theorem afterSend_body_getD (st : DoState) :
    st.afterSend.req.body.getD "" = "" := by
  show (st.req.body.map (fun _ => "")).getD "" = ""
  cases st.req.body <;> rfl

theorem sanitizedDebuggingInfo_congr (r1 r2 : HttpRequest) (b : String)
    (resp : HttpResponse) (hm : r1.method = r2.method) (hu : r1.url = r2.url) :
    sanitizedDebuggingInfo r1 b resp = sanitizedDebuggingInfo r2 b resp := by
  unfold sanitizedDebuggingInfo
  rw [hm, hu]

theorem doLoop_zero (env : Env) (wd : Bool) (i : Nat)
    (lastErr : Option ClientError) (st : DoState) :
    doLoop env wd i 0 lastErr st = (lastErr, st) := rfl

theorem doLoop_succ (env : Env) (wd : Bool) (i r : Nat)
    (lastErr : Option ClientError) (st : DoState) :
    doLoop env wd i (r + 1) lastErr st =
      if i ≠ 0 ∧ env.stopAt i = true then (none, st)
      else if (attemptRequest env wd st).1 then
        doLoop env wd (i + 1) r (attemptRequest env wd st).2.1
          (attemptRequest env wd st).2.2
      else ((attemptRequest env wd st).2.1, (attemptRequest env wd st).2.2) :=
  rfl

theorem attemptRequest_netCalls (env : Env) (wd : Bool) (st : DoState) :
    ((attemptRequest env wd st).2.2).netCalls = st.netCalls + 1 := by
  unfold attemptRequest
  cases env.net st.netCalls with
  | transportError msg => rfl
  | response resp =>
    dsimp only
    split
    · split
      · split <;> rfl
      · rfl
    · split
      · cases env.inClusterConfig st.cfgCalls with
        | error e => rfl
        | ok c => dsimp only; split <;> rfl
      · split
        · rfl
        · split <;> rfl

theorem attemptRequest_transportError (env : Env) (wd : Bool) (st : DoState)
    (msg : String) (hnet : env.net st.netCalls = NetOutcome.transportError msg) :
    attemptRequest env wd st =
      (false, some (ClientError.errTransport msg), st.afterSend) := by
  unfold attemptRequest DoState.afterSend
  rw [hnet]

theorem attemptRequest_404 (env : Env) (wd : Bool) (st : DoState)
    (resp : HttpResponse) (hnet : env.net st.netCalls = NetOutcome.response resp)
    (hsc : resp.statusCode = 404) :
    attemptRequest env wd st =
      (false,
       some (ClientError.errNotFound
         (sanitizedDebuggingInfo st.req (st.req.body.getD "") resp)),
       st.afterSend) := by
  unfold attemptRequest DoState.afterSend
  rw [hnet]
  simp [hsc]

theorem attemptRequest_5xx (env : Env) (wd : Bool) (st : DoState)
    (resp : HttpResponse) (hnet : env.net st.netCalls = NetOutcome.response resp)
    (hsc : resp.statusCode = 500 ∨ resp.statusCode = 502 ∨
      resp.statusCode = 503 ∨ resp.statusCode = 504) :
    attemptRequest env wd st =
      (true,
       some (ClientError.errUnexpectedStatusCode
         (sanitizedDebuggingInfo st.req (st.req.body.getD "") resp)),
       st.afterSend) := by
  unfold attemptRequest DoState.afterSend
  rw [hnet]
  rcases hsc with h | h | h | h <;> simp [h]

theorem attemptRequest_auth_error (env : Env) (wd : Bool) (st : DoState)
    (resp : HttpResponse) (e : ClientError)
    (hnet : env.net st.netCalls = NetOutcome.response resp)
    (hsc : resp.statusCode = 401 ∨ resp.statusCode = 403)
    (hcfg : env.inClusterConfig st.cfgCalls = Except.error e) :
    attemptRequest env wd st =
      (false, some e, { st.afterSend with cfgCalls := st.cfgCalls + 1 }) := by
  unfold attemptRequest DoState.afterSend
  rw [hnet]
  rcases hsc with h | h <;> simp [h, hcfg]

theorem attemptRequest_auth_same (env : Env) (wd : Bool) (st : DoState)
    (resp : HttpResponse) (c2 : Config)
    (hnet : env.net st.netCalls = NetOutcome.response resp)
    (hsc : resp.statusCode = 401 ∨ resp.statusCode = 403)
    (hcfg : env.inClusterConfig st.cfgCalls = Except.ok c2)
    (htok : c2.bearerToken = st.config.bearerToken) :
    attemptRequest env wd st =
      (false,
       some (ClientError.errBadStatusCode
         (sanitizedDebuggingInfo st.req (st.req.body.getD "") resp)),
       { st.afterSend with cfgCalls := st.cfgCalls + 1 }) := by
  unfold attemptRequest DoState.afterSend
  rw [hnet]
  rcases hsc with h | h <;> simp [h, hcfg, htok]

theorem attemptRequest_auth_rotated (env : Env) (wd : Bool) (st : DoState)
    (resp : HttpResponse) (c2 : Config)
    (hnet : env.net st.netCalls = NetOutcome.response resp)
    (hsc : resp.statusCode = 401 ∨ resp.statusCode = 403)
    (hcfg : env.inClusterConfig st.cfgCalls = Except.ok c2)
    (htok : c2.bearerToken ≠ st.config.bearerToken) :
    attemptRequest env wd st =
      (true,
       some (ClientError.errBadStatusCode
         (sanitizedDebuggingInfo st.req (st.req.body.getD "") resp)),
       { st.afterSend with cfgCalls := st.cfgCalls + 1, config := c2 }) := by
  unfold attemptRequest DoState.afterSend
  rw [hnet]
  rcases hsc with h | h <;> simp [h, hcfg, htok]

theorem doLoop_netCalls_mono (env : Env) (wd : Bool) :
    ∀ r i lastErr st, st.netCalls ≤ (doLoop env wd i r lastErr st).2.netCalls := by
  intro r
  induction r with
  | zero => intro i lastErr st; exact Nat.le_refl _
  | succ r ih =>
    intro i lastErr st
    rw [doLoop_succ]
    split
    · exact Nat.le_refl _
    · split
      · refine le_trans ?_ (ih (i + 1) _ _)
        rw [attemptRequest_netCalls]
        omega
      · show st.netCalls ≤ ((attemptRequest env wd st).2.2).netCalls
        rw [attemptRequest_netCalls]
        omega

/-! ## Witness material: concrete executions used to instantiate the
claim theorems. -/

/-- A concrete configuration for witness executions. -/
def wCfg : Config :=
  { host := "https://kube", bearerToken := "tokenA", caCertPool := 0 }

/-- A concrete request for witness executions. -/
def wReq : HttpRequest :=
  { method := "GET", url := "https://kube/api/v1/namespaces/ns/pods/p" }

/-- A concrete executor state for witness executions. -/
def wSt : DoState :=
  { config := wCfg, req := wReq, trace := [], netCalls := 0, cfgCalls := 0,
    pod := none }

/-- A witness environment answering every network call with `out`, every
config reload with `cfgres`, and consulting `stop` at each wait. -/
def wEnv (stop : Nat → Bool) (cfgres : Except ClientError Config)
    (out : NetOutcome) : Env :=
  { stopAt := stop,
    inClusterConfig := fun _ => cfgres,
    net := fun _ => out,
    decodePod := fun _ => .ok { metadata := none },
    jsonMarshal := fun _ => .ok "[]" }

/-- A concrete 401 response. -/
def wResp401 : HttpResponse := { statusCode := 401, body := "denied" }

/-- A concrete 404 response. -/
def wResp404 : HttpResponse := { statusCode := 404, body := "no such pod" }

/-- A concrete 503 response. -/
def wResp503 : HttpResponse := { statusCode := 503, body := "unavailable" }

/-! ## Claims -/

/-- C6: for every execution in which the cancellation signal is activated
while the executor is waiting before a subsequent attempt (attempt index
`i ≠ 0`), the call returns with no error — the loop's result is `none` —
and the state is returned unchanged, so no further network calls are made. -/
theorem c6_cancellation_returns_nil (env : Env) (wd : Bool) (i r : Nat)
    (lastErr : Option ClientError) (st : DoState)
    (hi : i ≠ 0) (hstop : env.stopAt i = true) (hr : 1 ≤ r) :
    doLoop env wd i r lastErr st = (none, st) := by
  obtain ⟨r, rfl⟩ : ∃ r2, r = r2 + 1 := ⟨r - 1, by omega⟩
  rw [doLoop_succ, if_pos ⟨hi, hstop⟩]

/-- Witness for C6: the stop signal closed before the wait preceding
attempt 1 makes the loop return a nil error immediately. -/
theorem c6_witness :
    doLoop (wEnv (fun _ => true) (Except.ok wCfg) (NetOutcome.response wResp503))
        false 1 9 (some ClientError.errNotInCluster) wSt = (none, wSt) :=
  c6_cancellation_returns_nil
    (wEnv (fun _ => true) (Except.ok wCfg) (NetOutcome.response wResp503))
    false 1 9 (some ClientError.errNotInCluster) wSt
    (by decide) rfl (by decide)

/-- C5: an attempt that receives a 404 response terminates the call
immediately with the distinctly-typed not-found error built from that
attempt; the final state shows exactly one network call was added (no
further attempt), and `isNotFound` distinguishes this error kind from
every other error kind. -/
theorem c5_not_found_terminal (env : Env) (wd : Bool) (i r : Nat)
    (lastErr : Option ClientError) (st : DoState) (resp : HttpResponse)
    (hwait : ¬(i ≠ 0 ∧ env.stopAt i = true)) (hr : 1 ≤ r)
    (hnet : env.net st.netCalls = NetOutcome.response resp)
    (hsc : resp.statusCode = 404) :
    doLoop env wd i r lastErr st =
      (some (ClientError.errNotFound
        (sanitizedDebuggingInfo st.req (st.req.body.getD "") resp)),
       st.afterSend) ∧
    st.afterSend.netCalls = st.netCalls + 1 ∧
    (ClientError.errNotFound
      (sanitizedDebuggingInfo st.req (st.req.body.getD "") resp)).isNotFound
        = true ∧
    (∀ e : ClientError, e.isNotFound = true →
      ∃ s, e = ClientError.errNotFound s) := by
  obtain ⟨r, rfl⟩ : ∃ r2, r = r2 + 1 := ⟨r - 1, by omega⟩
  refine ⟨?_, rfl, rfl, ?_⟩
  · rw [doLoop_succ, if_neg hwait, attemptRequest_404 env wd st resp hnet hsc]
    simp
  · intro e he
    cases e <;> simp [ClientError.isNotFound] at he ⊢

/-- Witness for C5: a first attempt answered 404 fails terminally with the
not-found error after exactly one call. -/
theorem c5_witness :
    doLoop (wEnv (fun _ => false) (Except.ok wCfg) (NetOutcome.response wResp404))
        true 0 maxRetries none wSt =
      (some (ClientError.errNotFound
        (sanitizedDebuggingInfo wSt.req (wSt.req.body.getD "") wResp404)),
       wSt.afterSend) ∧
    wSt.afterSend.netCalls = wSt.netCalls + 1 ∧
    (ClientError.errNotFound
      (sanitizedDebuggingInfo wSt.req (wSt.req.body.getD "") wResp404)).isNotFound
        = true ∧
    (∀ e : ClientError, e.isNotFound = true →
      ∃ s, e = ClientError.errNotFound s) :=
  c5_not_found_terminal
    (wEnv (fun _ => false) (Except.ok wCfg) (NetOutcome.response wResp404))
    true 0 maxRetries none wSt wResp404
    (by decide) (by decide) rfl rfl

/-- C4: an attempt that receives a 401 or 403 response, after which the
re-fetched credential carries the same bearer token as the one currently
held, terminates the call as a failure right after that single network
call: the loop returns the formatted bad-status error and the final state
records exactly one more network call. -/
theorem c4_auth_failure_same_token_terminal (env : Env) (wd : Bool)
    (i r : Nat) (lastErr : Option ClientError) (st : DoState)
    (resp : HttpResponse) (c2 : Config)
    (hwait : ¬(i ≠ 0 ∧ env.stopAt i = true)) (hr : 1 ≤ r)
    (hnet : env.net st.netCalls = NetOutcome.response resp)
    (hsc : resp.statusCode = 401 ∨ resp.statusCode = 403)
    (hcfg : env.inClusterConfig st.cfgCalls = Except.ok c2)
    (htok : c2.bearerToken = st.config.bearerToken) :
    doLoop env wd i r lastErr st =
      (some (ClientError.errBadStatusCode
        (sanitizedDebuggingInfo st.req (st.req.body.getD "") resp)),
       { st.afterSend with cfgCalls := st.cfgCalls + 1 }) ∧
    ({ st.afterSend with cfgCalls := st.cfgCalls + 1 } : DoState).netCalls
      = st.netCalls + 1 := by
  obtain ⟨r, rfl⟩ : ∃ r2, r = r2 + 1 := ⟨r - 1, by omega⟩
  refine ⟨?_, rfl⟩
  rw [doLoop_succ, if_neg hwait,
    attemptRequest_auth_same env wd st resp c2 hnet hsc hcfg htok]
  simp

/-- Witness for C4: a first attempt answered 401 whose refresh returns the
identical token fails terminally after exactly one call. -/
theorem c4_witness :
    doLoop (wEnv (fun _ => false) (Except.ok wCfg) (NetOutcome.response wResp401))
        false 0 maxRetries none wSt =
      (some (ClientError.errBadStatusCode
        (sanitizedDebuggingInfo wSt.req (wSt.req.body.getD "") wResp401)),
       { wSt.afterSend with cfgCalls := wSt.cfgCalls + 1 }) ∧
    ({ wSt.afterSend with cfgCalls := wSt.cfgCalls + 1 } : DoState).netCalls
      = wSt.netCalls + 1 :=
  c4_auth_failure_same_token_terminal
    (wEnv (fun _ => false) (Except.ok wCfg) (NetOutcome.response wResp401))
    false 0 maxRetries none wSt wResp401 wCfg
    (by decide) (by decide) rfl (Or.inl rfl) rfl rfl

/-- C9: an attempt that receives a 401 or 403 response and whose subsequent
in-cluster configuration re-load fails terminates the call immediately with
the configuration-load error itself (for example `errNotInCluster`),
discarding the original authentication failure, after exactly that one
network call. -/
theorem c9_config_reload_error_terminal (env : Env) (wd : Bool)
    (i r : Nat) (lastErr : Option ClientError) (st : DoState)
    (resp : HttpResponse) (e : ClientError)
    (hwait : ¬(i ≠ 0 ∧ env.stopAt i = true)) (hr : 1 ≤ r)
    (hnet : env.net st.netCalls = NetOutcome.response resp)
    (hsc : resp.statusCode = 401 ∨ resp.statusCode = 403)
    (hcfg : env.inClusterConfig st.cfgCalls = Except.error e) :
    doLoop env wd i r lastErr st =
      (some e, { st.afterSend with cfgCalls := st.cfgCalls + 1 }) ∧
    ({ st.afterSend with cfgCalls := st.cfgCalls + 1 } : DoState).netCalls
      = st.netCalls + 1 := by
  obtain ⟨r, rfl⟩ : ∃ r2, r = r2 + 1 := ⟨r - 1, by omega⟩
  refine ⟨?_, rfl⟩
  rw [doLoop_succ, if_neg hwait,
    attemptRequest_auth_error env wd st resp e hnet hsc hcfg]
  simp

/-- Witness for C9: a first attempt answered 403 whose config re-load
fails with the not-in-cluster error surfaces exactly that error after one
call. -/
theorem c9_witness :
    doLoop (wEnv (fun _ => false) (Except.error ClientError.errNotInCluster)
        (NetOutcome.response { statusCode := 403, body := "forbidden" }))
        false 0 maxRetries none wSt =
      (some ClientError.errNotInCluster,
       { wSt.afterSend with cfgCalls := wSt.cfgCalls + 1 }) ∧
    ({ wSt.afterSend with cfgCalls := wSt.cfgCalls + 1 } : DoState).netCalls
      = wSt.netCalls + 1 :=
  c9_config_reload_error_terminal
    (wEnv (fun _ => false) (Except.error ClientError.errNotInCluster)
      (NetOutcome.response { statusCode := 403, body := "forbidden" }))
    false 0 maxRetries none wSt { statusCode := 403, body := "forbidden" }
    ClientError.errNotInCluster
    (by decide) (by decide) rfl (Or.inr rfl) rfl

/-- C10: for every call, the first network attempt is always executed —
the final state records at least one network call — regardless of the
cancellation signal's state, because the stop signal is consulted only in
the wait preceding attempts with nonzero index, never before attempt 0. -/
theorem c10_first_attempt_unconditional (env : Env) (cfg : Config)
    (req : HttpRequest) (wd : Bool) :
    1 ≤ (doRequest env cfg req wd).2.netCalls := by
  unfold doRequest
  rw [show maxRetries = 9 + 1 from rfl, doLoop_succ, if_neg (by simp)]
  split
  · refine le_trans ?_ (doLoop_netCalls_mono env wd 9 (0 + 1) _ _)
    rw [attemptRequest_netCalls]
  · show 1 ≤ ((attemptRequest env wd _).2.2).netCalls
    rw [attemptRequest_netCalls]

/-- Under a script answering every network call with a retryable 5xx
response, and with no cancellation, the loop runs all `r` remaining
attempts and returns the error recorded from the last one.  The request
body transmitted on any attempt after the first is drained, so the last
attempt's diagnostic body is the remaining bytes when `r = 1` and empty
otherwise. -/
theorem doLoop_all_5xx (env : Env) (wd : Bool)
    (hnet : ∀ k, ∃ resp, env.net k = NetOutcome.response resp ∧
      (resp.statusCode = 500 ∨ resp.statusCode = 502 ∨
       resp.statusCode = 503 ∨ resp.statusCode = 504))
    (hstop : ∀ i, env.stopAt i = false) :
    ∀ r i lastErr st, 1 ≤ r →
      ∀ resp, env.net (st.netCalls + (r - 1)) = NetOutcome.response resp →
        (doLoop env wd i r lastErr st).1 =
          some (ClientError.errUnexpectedStatusCode
            (sanitizedDebuggingInfo st.req
              (if r = 1 then st.req.body.getD "" else "") resp)) ∧
        (doLoop env wd i r lastErr st).2.netCalls = st.netCalls + r := by
  intro r
  induction r with
  | zero => intro i lastErr st h; omega
  | succ r ih =>
    intro i lastErr st _ resp hresp
    obtain ⟨resp0, hnet0, hsc0⟩ := hnet st.netCalls
    have hstep := attemptRequest_5xx env wd st resp0 hnet0 hsc0
    rw [doLoop_succ, if_neg (by simp [hstop]), hstep]
    cases r with
    | zero =>
      have hr0 : resp0 = resp := by
        have harg : st.netCalls + (0 + 1 - 1) = st.netCalls := by omega
        rw [harg, hnet0] at hresp
        exact (NetOutcome.response.injEq resp0 resp).mp hresp
      subst hr0
      simp [doLoop_zero, afterSend_netCalls]
    | succ r2 =>
      have harg : st.afterSend.netCalls + (r2 + 1 - 1) =
          st.netCalls + (r2 + 1 + 1 - 1) := by
        rw [afterSend_netCalls]; omega
      have hih := ih (i + 1)
        (some (ClientError.errUnexpectedStatusCode
          (sanitizedDebuggingInfo st.req (st.req.body.getD "") resp0)))
        st.afterSend (by omega) resp (by rw [harg]; exact hresp)
      have hX : (if r2 + 1 = 1 then st.afterSend.req.body.getD "" else "")
          = "" := by
        split
        · exact afterSend_body_getD st
        · rfl
      have hcg : sanitizedDebuggingInfo st.afterSend.req
            (if r2 + 1 = 1 then st.afterSend.req.body.getD "" else "") resp =
          sanitizedDebuggingInfo st.req "" resp := by
        rw [hX]
        exact sanitizedDebuggingInfo_congr _ _ _ _
          (afterSend_req_method st) (afterSend_req_url st)
      rw [hcg] at hih
      simp only [Prod.fst, eq_self_iff_true, if_true]
      refine ⟨?_, ?_⟩
      · rw [hih.1, if_neg (by omega)]
      · rw [hih.2, afterSend_netCalls]
        omega

/-- C3: for every execution in which every attempt's outcome is retryable
(here: the server answers 500/502/503/504 on every call) and no
cancellation occurs, the executor makes exactly 10 network attempts —
never an eleventh — and returns the error recorded from the last (tenth)
attempt, formatted from that attempt's request and response. -/
theorem c3_retry_budget_exhaustion (env : Env) (cfg : Config)
    (req : HttpRequest) (wd : Bool)
    (hnet : ∀ k, ∃ resp, env.net k = NetOutcome.response resp ∧
      (resp.statusCode = 500 ∨ resp.statusCode = 502 ∨
       resp.statusCode = 503 ∨ resp.statusCode = 504))
    (hstop : ∀ i, env.stopAt i = false) :
    ∀ resp, env.net 9 = NetOutcome.response resp →
      (doRequest env cfg req wd).2.netCalls = 10 ∧
      (doRequest env cfg req wd).1 =
        some (ClientError.errUnexpectedStatusCode
          (sanitizedDebuggingInfo req "" resp)) := by
  intro resp h9
  obtain ⟨h1, h2⟩ := doLoop_all_5xx env wd hnet hstop maxRetries 0 none
    { config := cfg,
      req := { req with
        headers := headerSet
          (headerSet req.headers "Authorization" ("Bearer " ++ cfg.bearerToken))
          "Accept" "application/json" },
      trace := [], netCalls := 0, cfgCalls := 0, pod := none }
    (by decide) resp
    (by show env.net (0 + (maxRetries - 1)) = NetOutcome.response resp
        norm_num [maxRetries]
        exact h9)
  constructor
  · unfold doRequest
    rw [h2]
    rfl
  · unfold doRequest
    rw [h1, if_neg (by decide : ¬maxRetries = 1)]
    rfl

/-- Witness for C3: ten 503 answers exhaust the budget and the tenth
attempt's error is returned. -/
theorem c3_witness :
    (doRequest (wEnv (fun _ => false) (Except.ok wCfg)
        (NetOutcome.response wResp503)) wCfg wReq false).2.netCalls = 10 ∧
    (doRequest (wEnv (fun _ => false) (Except.ok wCfg)
        (NetOutcome.response wResp503)) wCfg wReq false).1 =
      some (ClientError.errUnexpectedStatusCode
        (sanitizedDebuggingInfo wReq "" wResp503)) :=
  c3_retry_budget_exhaustion
    (wEnv (fun _ => false) (Except.ok wCfg) (NetOutcome.response wResp503))
    wCfg wReq false
    (fun _ => ⟨wResp503, rfl, Or.inr (Or.inr (Or.inl rfl))⟩)
    (fun _ => rfl) wResp503 rfl

/-- C8: for every input in which the namespace or the pod name is empty,
both `GetPod` and `PatchPod` return immediately the unset error
corresponding to the empty identifier — `errNamespaceUnset` when the
namespace is empty (that check comes first in the source), and
`errPodNameUnset` when the namespace is non-empty and the pod name is
empty — and issue zero network calls (the wire trace is empty). -/
theorem c8_unset_identifiers_fail_fast (env : Env) (cfg : Config)
    (ns podName : String) (patches : List Patch)
    (h : ns = "" ∨ podName = "") :
    (ns = "" →
      GetPod env cfg ns podName =
        (Except.error ClientError.errNamespaceUnset, []) ∧
      PatchPod env cfg ns podName patches =
        (some ClientError.errNamespaceUnset, [])) ∧
    (¬ns = "" →
      podName = "" ∧
      GetPod env cfg ns podName =
        (Except.error ClientError.errPodNameUnset, []) ∧
      PatchPod env cfg ns podName patches =
        (some ClientError.errPodNameUnset, [])) := by
  constructor
  · intro hns
    exact ⟨by simp [GetPod, hns], by simp [PatchPod, hns]⟩
  · intro hns
    have hpn : podName = "" := h.resolve_left hns
    exact ⟨hpn, by simp [GetPod, hns, hpn], by simp [PatchPod, hns, hpn]⟩

/-- Witness for C8: an empty namespace fails fast on both operations with
the namespace-unset error, and an empty pod name (with a non-empty
namespace) fails fast with the pod-name-unset error, both with zero
network calls. -/
theorem c8_witness :
    (GetPod (wEnv (fun _ => false) (Except.ok wCfg)
          (NetOutcome.response wResp503)) wCfg "" "mypod" =
        (Except.error ClientError.errNamespaceUnset, []) ∧
      PatchPod (wEnv (fun _ => false) (Except.ok wCfg)
          (NetOutcome.response wResp503)) wCfg "" "mypod"
          [{ operation := Add, path := "/metadata/labels/x", value := "1" }] =
        (some ClientError.errNamespaceUnset, [])) ∧
    (("" : String) = "" ∧
      GetPod (wEnv (fun _ => false) (Except.ok wCfg)
          (NetOutcome.response wResp503)) wCfg "myns" "" =
        (Except.error ClientError.errPodNameUnset, []) ∧
      PatchPod (wEnv (fun _ => false) (Except.ok wCfg)
          (NetOutcome.response wResp503)) wCfg "myns" ""
          [{ operation := Add, path := "/metadata/labels/x", value := "1" }] =
        (some ClientError.errPodNameUnset, [])) :=
  ⟨(c8_unset_identifiers_fail_fast
      (wEnv (fun _ => false) (Except.ok wCfg) (NetOutcome.response wResp503))
      wCfg "" "mypod"
      [{ operation := Add, path := "/metadata/labels/x", value := "1" }]
      (Or.inl rfl)).1 rfl,
   (c8_unset_identifiers_fail_fast
      (wEnv (fun _ => false) (Except.ok wCfg) (NetOutcome.response wResp503))
      wCfg "myns" ""
      [{ operation := Add, path := "/metadata/labels/x", value := "1" }]
      (Or.inr rfl)).2 (by decide)⟩

/-! ## C1: the refreshed bearer token is not attached to the retry.

Scenario (concrete): the current token is `tokenA`; the server answers 401
to the first call and 200 to the second; the config re-load returns a
rotated token `tokenB`.  The code makes exactly two network calls and the
call succeeds, but the Authorization header transmitted on the *second*
call is still `Bearer tokenA`: `do` sets the header once before the retry
loop from the config it holds at entry, and adopting the refreshed config
never touches the already-built request. -/

/-- Configuration holding the original token in the C1 scenario. -/
def cfgTokenA : Config :=
  { host := "https://kube", bearerToken := "tokenA", caCertPool := 0 }

/-- Refreshed configuration with the rotated token in the C1 scenario. -/
def cfgTokenB : Config :=
  { host := "https://kube", bearerToken := "tokenB", caCertPool := 0 }

/-- Environment of the C1 scenario: 401 on the first call, 200 on the
second; every config re-load observes the rotated token. -/
def envC1 : Env :=
  { stopAt := fun _ => false,
    inClusterConfig := fun _ => .ok cfgTokenB,
    net := fun k =>
      if k = 0 then .response { statusCode := 401, body := "denied" }
      else .response { statusCode := 200, body := "ok" },
    decodePod := fun _ => .ok { metadata := none },
    jsonMarshal := fun _ => .ok "[]" }

/-- C1: in the 401-then-refresh-then-200 scenario, exactly two network
calls occur and the call succeeds — but the second network call still
carries the *original* bearer token `Bearer tokenA` in its Authorization
header, not the refreshed `Bearer tokenB` (which the executor did adopt
into its config), refuting the claim that the new credential is attached
to the second call. -/
theorem c1_stale_token_on_retry :
    (doRequest envC1 cfgTokenA wReq false).1 = none ∧
    (doRequest envC1 cfgTokenA wReq false).2.netCalls = 2 ∧
    (doRequest envC1 cfgTokenA wReq false).2.config = cfgTokenB ∧
    ((doRequest envC1 cfgTokenA wReq false).2.trace.map
        (fun s => headerGet s.headers "Authorization")) =
      [some "Bearer tokenA", some "Bearer tokenA"] ∧
    some ("Bearer tokenA" : String) ≠
      some ("Bearer " ++ cfgTokenB.bearerToken) := by
  refine ⟨?_, ?_, ?_, ?_, ?_⟩ <;> decide

/-! ## C2: the request body is not replayed on retries.

Scenario (concrete): a request with body bytes `patchdoc`; the server
answers 503 to the first call and 200 to the second.  Attempt 0 transmits
`patchdoc` and leaves the buffered reader drained; attempt 1 re-reads the
drained reader, so it buffers and transmits the empty byte string —
refuting the claim that every attempt transmits a byte-identical copy of
the originally built body. -/

/-- Environment of the C2 scenario: 503 on the first call, 200 on the
second. -/
def envC2 : Env :=
  { stopAt := fun _ => false,
    inClusterConfig := fun _ => .ok cfgTokenA,
    net := fun k =>
      if k = 0 then .response { statusCode := 503, body := "unavailable" }
      else .response { statusCode := 200, body := "" },
    decodePod := fun _ => .ok { metadata := none },
    jsonMarshal := fun _ => .ok "[]" }

/-- A PATCH request with a non-empty buffered body, as `PatchPod` builds. -/
def reqC2 : HttpRequest :=
  { method := "PATCH", url := "https://kube/api/v1/namespaces/ns/pods/p",
    headers := headerSet [] "Content-Type" "application/json-patch+json",
    body := some "patchdoc" }

/-- C2: in the 503-then-200 scenario the retried attempt does not resend
the original body: the first network call transmits `patchdoc`, the second
transmits the empty byte string (the buffered reader was consumed by the
first send), although the call reports success. -/
theorem c2_body_not_replayed :
    (doRequest envC2 cfgTokenA reqC2 false).1 = none ∧
    ((doRequest envC2 cfgTokenA reqC2 false).2.trace.map SentRequest.body) =
      ["patchdoc", ""] ∧
    ("patchdoc" : String) ≠ "" := by
  refine ⟨?_, ?_, ?_⟩ <;> decide

/-! ## C7: diagnostics never depend on the bearer token or any header. -/

theorem attemptRequest_success (env : Env) (wd : Bool) (st : DoState)
    (resp : HttpResponse) (hnet : env.net st.netCalls = NetOutcome.response resp)
    (hsc : resp.statusCode = 200 ∨ resp.statusCode = 201 ∨
      resp.statusCode = 202 ∨ resp.statusCode = 204) :
    attemptRequest env wd st =
      (if wd then
        match env.decodePod resp.body with
        | .ok p => (false, none, { st.afterSend with pod := some p })
        | .error msg =>
            (false, some (ClientError.errDecode msg), st.afterSend)
      else (false, none, st.afterSend)) := by
  unfold attemptRequest DoState.afterSend
  rw [hnet]
  rcases hsc with h | h | h | h <;> simp [h]

theorem attemptRequest_default (env : Env) (wd : Bool) (st : DoState)
    (resp : HttpResponse) (hnet : env.net st.netCalls = NetOutcome.response resp)
    (hA : ¬(resp.statusCode = 200 ∨ resp.statusCode = 201 ∨
      resp.statusCode = 202 ∨ resp.statusCode = 204))
    (hB : ¬(resp.statusCode = 401 ∨ resp.statusCode = 403))
    (hC : ¬resp.statusCode = 404)
    (hD : ¬(resp.statusCode = 500 ∨ resp.statusCode = 502 ∨
      resp.statusCode = 503 ∨ resp.statusCode = 504)) :
    attemptRequest env wd st =
      (false, some (ClientError.errUnexpectedStatusCode
        (sanitizedDebuggingInfo st.req (st.req.body.getD "") resp)),
       st.afterSend) := by
  unfold attemptRequest DoState.afterSend
  rw [hnet]
  simp only [if_neg hA, if_neg hB, if_neg hC, if_neg hD]

/-- Propagate a bearer-token renaming into a config snapshot. -/
def Config.renameToken (φ : String → String) (c : Config) : Config :=
  { host := c.host, bearerToken := φ c.bearerToken, caCertPool := c.caCertPool }

/-- Two transport outcomes that agree on everything the executor ever
reads: the transport error text, the status code and the response body.
The response *headers* are left unconstrained. -/
def NetOutcome.agrees : NetOutcome → NetOutcome → Prop
  | .transportError m1, .transportError m2 => m2 = m1
  | .response r1, .response r2 =>
      r2.statusCode = r1.statusCode ∧ r2.body = r1.body
  | _, _ => False

/-- Two config-loader outcomes related by the token renaming `φ`:
identical load errors, or snapshots equal up to renaming the token. -/
def configAgrees (φ : String → String) :
    Except ClientError Config → Except ClientError Config → Prop
  | .error e1, .error e2 => e2 = e1
  | .ok c1, .ok c2 => c2 = Config.renameToken φ c1
  | _, _ => False

/-- Executor states equal up to the bearer token (renamed by `φ`), the
request headers and the wire trace — exactly the data the sanitized
diagnostics must not depend on. -/
def StateAgrees (φ : String → String) (st1 st2 : DoState) : Prop :=
  st2.config = Config.renameToken φ st1.config ∧
  st2.req.method = st1.req.method ∧
  st2.req.url = st1.req.url ∧
  st2.req.body = st1.req.body ∧
  st2.netCalls = st1.netCalls ∧
  st2.cfgCalls = st1.cfgCalls ∧
  st2.pod = st1.pod

theorem StateAgrees.afterSend (φ : String → String) {st1 st2 : DoState}
    (h : StateAgrees φ st1 st2) :
    StateAgrees φ st1.afterSend st2.afterSend := by
  obtain ⟨hc, hm, hu, hb, hn, hcc, hp⟩ := h
  refine ⟨hc, hm, hu, ?_, ?_, hcc, hp⟩
  · show st2.req.body.map (fun _ => "") = st1.req.body.map (fun _ => "")
    rw [hb]
  · show st2.netCalls + 1 = st1.netCalls + 1
    rw [hn]

theorem StateAgrees.afterDecode (φ : String → String) {st1 st2 : DoState}
    (p : Option Pod) (h : StateAgrees φ st1 st2) :
    StateAgrees φ { st1.afterSend with pod := p }
      { st2.afterSend with pod := p } := by
  obtain ⟨hc, hm, hu, hb, hn, hcc, hp⟩ := h
  refine ⟨hc, hm, hu, ?_, ?_, hcc, rfl⟩
  · show st2.req.body.map (fun _ => "") = st1.req.body.map (fun _ => "")
    rw [hb]
  · show st2.netCalls + 1 = st1.netCalls + 1
    rw [hn]

theorem StateAgrees.afterAuth (φ : String → String) {st1 st2 : DoState}
    (h : StateAgrees φ st1 st2) :
    StateAgrees φ { st1.afterSend with cfgCalls := st1.cfgCalls + 1 }
      { st2.afterSend with cfgCalls := st2.cfgCalls + 1 } := by
  obtain ⟨hc, hm, hu, hb, hn, hcc, hp⟩ := h
  refine ⟨hc, hm, hu, ?_, ?_, ?_, hp⟩
  · show st2.req.body.map (fun _ => "") = st1.req.body.map (fun _ => "")
    rw [hb]
  · show st2.netCalls + 1 = st1.netCalls + 1
    rw [hn]
  · show st2.cfgCalls + 1 = st1.cfgCalls + 1
    rw [hcc]

theorem StateAgrees.afterRotate (φ : String → String) {st1 st2 : DoState}
    (c : Config) (h : StateAgrees φ st1 st2) :
    StateAgrees φ
      { st1.afterSend with cfgCalls := st1.cfgCalls + 1, config := c }
      { st2.afterSend with
        cfgCalls := st2.cfgCalls + 1,
        config := Config.renameToken φ c } := by
  obtain ⟨hc, hm, hu, hb, hn, hcc, hp⟩ := h
  refine ⟨rfl, hm, hu, ?_, ?_, ?_, hp⟩
  · show st2.req.body.map (fun _ => "") = st1.req.body.map (fun _ => "")
    rw [hb]
  · show st2.netCalls + 1 = st1.netCalls + 1
    rw [hn]
  · show st2.cfgCalls + 1 = st1.cfgCalls + 1
    rw [hcc]

/-- One attempt executed in two environments that differ only in the
bearer token (renamed injectively by `φ`), the request headers, and the
response headers produces the same retry decision and the same error, and
preserves the state agreement. -/
theorem attemptRequest_agrees (φ : String → String)
    (hφ : ∀ a b, φ a = φ b → a = b)
    (env1 env2 : Env) (wd : Bool)
    (hnet : ∀ k, NetOutcome.agrees (env1.net k) (env2.net k))
    (hcfg : ∀ k, configAgrees φ (env1.inClusterConfig k) (env2.inClusterConfig k))
    (hdec : env2.decodePod = env1.decodePod)
    {st1 st2 : DoState} (hst : StateAgrees φ st1 st2) :
    (attemptRequest env2 wd st2).1 = (attemptRequest env1 wd st1).1 ∧
    (attemptRequest env2 wd st2).2.1 = (attemptRequest env1 wd st1).2.1 ∧
    StateAgrees φ (attemptRequest env1 wd st1).2.2
      (attemptRequest env2 wd st2).2.2 := by
  obtain ⟨hc, hm, hu, hb, hn, hcc, hp⟩ := hst
  have hnet1 := hnet st1.netCalls
  cases h1 : env1.net st1.netCalls with
  | transportError m1 =>
    have h2 : env2.net st2.netCalls = NetOutcome.transportError m1 := by
      rw [hn]
      cases h2x : env2.net st1.netCalls with
      | transportError m2 =>
        rw [h1, h2x] at hnet1
        simp only [NetOutcome.agrees] at hnet1
        rw [hnet1]
      | response r2 =>
        rw [h1, h2x] at hnet1
        exact absurd hnet1 (by simp [NetOutcome.agrees])
    rw [attemptRequest_transportError env1 wd st1 m1 h1,
        attemptRequest_transportError env2 wd st2 m1 h2]
    exact ⟨rfl, rfl, StateAgrees.afterSend φ ⟨hc, hm, hu, hb, hn, hcc, hp⟩⟩
  | response r1 =>
    obtain ⟨r2, h2, hsc, hbody⟩ :
        ∃ r2, env2.net st2.netCalls = NetOutcome.response r2 ∧
          r2.statusCode = r1.statusCode ∧ r2.body = r1.body := by
      rw [hn]
      cases h2x : env2.net st1.netCalls with
      | transportError m2 =>
        rw [h1, h2x] at hnet1
        exact absurd hnet1 (by simp [NetOutcome.agrees])
      | response r2 =>
        rw [h1, h2x] at hnet1
        simp only [NetOutcome.agrees] at hnet1
        exact ⟨r2, rfl, hnet1.1, hnet1.2⟩
    have hsan : sanitizedDebuggingInfo st2.req (st2.req.body.getD "") r2 =
        sanitizedDebuggingInfo st1.req (st1.req.body.getD "") r1 := by
      unfold sanitizedDebuggingInfo
      rw [hm, hu, hb, hsc, hbody]
    by_cases hA : r1.statusCode = 200 ∨ r1.statusCode = 201 ∨
        r1.statusCode = 202 ∨ r1.statusCode = 204
    · have hA2 : r2.statusCode = 200 ∨ r2.statusCode = 201 ∨
          r2.statusCode = 202 ∨ r2.statusCode = 204 := by rw [hsc]; exact hA
      rw [attemptRequest_success env1 wd st1 r1 h1 hA,
          attemptRequest_success env2 wd st2 r2 h2 hA2]
      cases wd with
      | false =>
        exact ⟨rfl, rfl, StateAgrees.afterSend φ ⟨hc, hm, hu, hb, hn, hcc, hp⟩⟩
      | true =>
        rw [if_pos rfl, if_pos rfl, hdec, hbody]
        cases hd : env1.decodePod r1.body with
        | ok p =>
          exact ⟨rfl, rfl,
            StateAgrees.afterDecode φ (some p) ⟨hc, hm, hu, hb, hn, hcc, hp⟩⟩
        | error msg =>
          exact ⟨rfl, rfl, StateAgrees.afterSend φ ⟨hc, hm, hu, hb, hn, hcc, hp⟩⟩
    · by_cases hB : r1.statusCode = 401 ∨ r1.statusCode = 403
      · have hB2 : r2.statusCode = 401 ∨ r2.statusCode = 403 := by
          rw [hsc]; exact hB
        have hcfg1 := hcfg st1.cfgCalls
        cases hk1 : env1.inClusterConfig st1.cfgCalls with
        | error e1 =>
          have hk2 : env2.inClusterConfig st2.cfgCalls = Except.error e1 := by
            rw [hcc]
            cases hk2x : env2.inClusterConfig st1.cfgCalls with
            | error e2 =>
              rw [hk1, hk2x] at hcfg1
              simp only [configAgrees] at hcfg1
              rw [hcfg1]
            | ok c =>
              rw [hk1, hk2x] at hcfg1
              exact absurd hcfg1 (by simp [configAgrees])
          rw [attemptRequest_auth_error env1 wd st1 r1 e1 h1 hB hk1,
              attemptRequest_auth_error env2 wd st2 r2 e1 h2 hB2 hk2]
          exact ⟨rfl, rfl, StateAgrees.afterAuth φ ⟨hc, hm, hu, hb, hn, hcc, hp⟩⟩
        | ok c1 =>
          have hk2 : env2.inClusterConfig st2.cfgCalls =
              Except.ok (Config.renameToken φ c1) := by
            rw [hcc]
            cases hk2x : env2.inClusterConfig st1.cfgCalls with
            | error e2 =>
              rw [hk1, hk2x] at hcfg1
              exact absurd hcfg1 (by simp [configAgrees])
            | ok c2 =>
              rw [hk1, hk2x] at hcfg1
              simp only [configAgrees] at hcfg1
              rw [hcfg1]
          by_cases ht : c1.bearerToken = st1.config.bearerToken
          · have ht2 : (Config.renameToken φ c1).bearerToken
                = st2.config.bearerToken := by
              rw [hc]
              show φ c1.bearerToken = φ st1.config.bearerToken
              rw [ht]
            rw [attemptRequest_auth_same env1 wd st1 r1 c1 h1 hB hk1 ht,
                attemptRequest_auth_same env2 wd st2 r2 _ h2 hB2 hk2 ht2]
            exact ⟨rfl, by rw [hsan],
              StateAgrees.afterAuth φ ⟨hc, hm, hu, hb, hn, hcc, hp⟩⟩
          · have ht2 : (Config.renameToken φ c1).bearerToken
                ≠ st2.config.bearerToken := by
              rw [hc]
              show φ c1.bearerToken ≠ φ st1.config.bearerToken
              intro hx
              exact ht (hφ _ _ hx)
            rw [attemptRequest_auth_rotated env1 wd st1 r1 c1 h1 hB hk1 ht,
                attemptRequest_auth_rotated env2 wd st2 r2 _ h2 hB2 hk2 ht2]
            exact ⟨rfl, by rw [hsan],
              StateAgrees.afterRotate φ c1 ⟨hc, hm, hu, hb, hn, hcc, hp⟩⟩
      · by_cases hC : r1.statusCode = 404
        · have hC2 : r2.statusCode = 404 := by rw [hsc]; exact hC
          rw [attemptRequest_404 env1 wd st1 r1 h1 hC,
              attemptRequest_404 env2 wd st2 r2 h2 hC2]
          exact ⟨rfl, by rw [hsan],
            StateAgrees.afterSend φ ⟨hc, hm, hu, hb, hn, hcc, hp⟩⟩
        · by_cases hD : r1.statusCode = 500 ∨ r1.statusCode = 502 ∨
              r1.statusCode = 503 ∨ r1.statusCode = 504
          · have hD2 : r2.statusCode = 500 ∨ r2.statusCode = 502 ∨
                r2.statusCode = 503 ∨ r2.statusCode = 504 := by
              rw [hsc]; exact hD
            rw [attemptRequest_5xx env1 wd st1 r1 h1 hD,
                attemptRequest_5xx env2 wd st2 r2 h2 hD2]
            exact ⟨rfl, by rw [hsan],
              StateAgrees.afterSend φ ⟨hc, hm, hu, hb, hn, hcc, hp⟩⟩
          · have hA2 : ¬(r2.statusCode = 200 ∨ r2.statusCode = 201 ∨
                r2.statusCode = 202 ∨ r2.statusCode = 204) := by
              rw [hsc]; exact hA
            have hB2 : ¬(r2.statusCode = 401 ∨ r2.statusCode = 403) := by
              rw [hsc]; exact hB
            have hC2 : ¬r2.statusCode = 404 := by rw [hsc]; exact hC
            have hD2 : ¬(r2.statusCode = 500 ∨ r2.statusCode = 502 ∨
                r2.statusCode = 503 ∨ r2.statusCode = 504) := by
              rw [hsc]; exact hD
            rw [attemptRequest_default env1 wd st1 r1 h1 hA hB hC hD,
                attemptRequest_default env2 wd st2 r2 h2 hA2 hB2 hC2 hD2]
            exact ⟨rfl, by rw [hsan],
              StateAgrees.afterSend φ ⟨hc, hm, hu, hb, hn, hcc, hp⟩⟩

/-- The whole retry loop executed in two environments that differ only in
the bearer token (renamed injectively), the request headers and the
response headers returns the same error. -/
theorem doLoop_agrees (φ : String → String)
    (hφ : ∀ a b, φ a = φ b → a = b)
    (env1 env2 : Env) (wd : Bool)
    (hstop : env2.stopAt = env1.stopAt)
    (hnet : ∀ k, NetOutcome.agrees (env1.net k) (env2.net k))
    (hcfg : ∀ k, configAgrees φ (env1.inClusterConfig k) (env2.inClusterConfig k))
    (hdec : env2.decodePod = env1.decodePod) :
    ∀ r i lastErr st1 st2, StateAgrees φ st1 st2 →
      (doLoop env2 wd i r lastErr st2).1 = (doLoop env1 wd i r lastErr st1).1 := by
  intro r
  induction r with
  | zero => intro i lastErr st1 st2 _; rfl
  | succ r ih =>
    intro i lastErr st1 st2 hst
    rw [doLoop_succ env2 wd i r lastErr st2, doLoop_succ env1 wd i r lastErr st1,
      hstop]
    by_cases hw : i ≠ 0 ∧ env1.stopAt i = true
    · rw [if_pos hw, if_pos hw]
    · rw [if_neg hw, if_neg hw]
      obtain ⟨hb1, he1, hrel⟩ :=
        attemptRequest_agrees φ hφ env1 env2 wd hnet hcfg hdec hst
      rw [hb1, he1]
      by_cases hr : (attemptRequest env1 wd st1).1 = true
      · rw [if_pos hr, if_pos hr]
        exact ih (i + 1) _ _ _ hrel
      · rw [if_neg hr, if_neg hr]

/-- C7: the error (hence the error text) surfaced by a failing call is a
function only of the request method, URL, buffered request body, the
response status codes and response bodies, and the collaborators' own
error texts.  Formally: renaming the bearer token by any injective `φ`
(in the held config and in every refreshed snapshot), replacing the
request headers arbitrarily, and replacing every response's headers
arbitrarily, leaves the surfaced error — and its `errorText` — unchanged.
In particular the bearer token and the request/response header values
never flow into the produced diagnostic text. -/
theorem c7_error_text_noninterference (φ : String → String)
    (hφ : ∀ a b, φ a = φ b → a = b)
    (env1 env2 : Env) (cfg : Config) (req : HttpRequest)
    (hs2 : List (String × String)) (wd : Bool)
    (hstop : env2.stopAt = env1.stopAt)
    (hnet : ∀ k, NetOutcome.agrees (env1.net k) (env2.net k))
    (hcfg : ∀ k, configAgrees φ (env1.inClusterConfig k) (env2.inClusterConfig k))
    (hdec : env2.decodePod = env1.decodePod) :
    ((doRequest env2 (Config.renameToken φ cfg)
        { req with headers := hs2 } wd).1.map ClientError.errorText) =
      ((doRequest env1 cfg req wd).1.map ClientError.errorText) ∧
    (doRequest env2 (Config.renameToken φ cfg)
        { req with headers := hs2 } wd).1 =
      (doRequest env1 cfg req wd).1 := by
  have h : (doLoop env2 wd 0 maxRetries none
      { config := Config.renameToken φ cfg,
        req := { req with
          headers := headerSet
            (headerSet hs2 "Authorization" ("Bearer " ++ φ cfg.bearerToken))
            "Accept" "application/json" },
        trace := [], netCalls := 0, cfgCalls := 0, pod := none }).1 =
      (doLoop env1 wd 0 maxRetries none
      { config := cfg,
        req := { req with
          headers := headerSet
            (headerSet req.headers "Authorization" ("Bearer " ++ cfg.bearerToken))
            "Accept" "application/json" },
        trace := [], netCalls := 0, cfgCalls := 0, pod := none }).1 :=
    doLoop_agrees φ hφ env1 env2 wd hstop hnet hcfg hdec maxRetries 0 none _ _
      ⟨rfl, rfl, rfl, rfl, rfl, rfl, rfl⟩
  exact ⟨congrArg (Option.map ClientError.errorText) h, h⟩

/-- Environment for the C7 witness: a 404 answer with no response
headers. -/
def envC7a : Env :=
  wEnv (fun _ => false) (Except.ok wCfg)
    (NetOutcome.response { statusCode := 404, body := "nf" })

/-- Environment for the C7 witness: the same 404 answer carrying an extra
response header. -/
def envC7b : Env :=
  wEnv (fun _ => false) (Except.ok wCfg)
    (NetOutcome.response
      { statusCode := 404, headers := [("X-Request-Id", "abc")], body := "nf" })

/-- Witness for C7: changing the request headers and the response headers
(while renaming the token by the identity) leaves the surfaced error text
unchanged. -/
theorem c7_witness :
    ((doRequest envC7b (Config.renameToken (fun s => s) wCfg)
        { wReq with headers := [("X-Debug", "1")] } true).1.map
          ClientError.errorText) =
      ((doRequest envC7a wCfg wReq true).1.map ClientError.errorText) ∧
    (doRequest envC7b (Config.renameToken (fun s => s) wCfg)
        { wReq with headers := [("X-Debug", "1")] } true).1 =
      (doRequest envC7a wCfg wReq true).1 :=
  c7_error_text_noninterference (fun s => s) (fun _ _ h => h) envC7a envC7b
    wCfg wReq [("X-Debug", "1")] true rfl (fun _ => ⟨rfl, rfl⟩)
    (fun _ => rfl) rfl

end KubeClient
